import Mathlib

/- Verification of the relational data model in src/src/models.py:
   five SQLAlchemy entities (User, Post, Comment, Like, Follow), their
   uniqueness / foreign-key constraints, cascade deletes, and the
   User.serialize method. The database state is embedded as lists of rows;
   insert and delete operations implement the semantics the declared
   constraints induce (a failing insert returns an error and produces no
   new state, so the database is left unchanged). -/

/-- Timestamp record standing for Python datetime values stored in
DateTime columns. -/
structure Datetime where
  year : Nat
  month : Nat
  day : Nat
  hour : Nat
  minute : Nat
  second : Nat
  microsecond : Nat
deriving DecidableEq

/-- Left-pad a number to two digits, as Python does for date components. -/
def pad2 (n : Nat) : String :=
  if n < 10 then "0" ++ toString n else toString n

/-- Left-pad a number to four digits, as Python renders the year. -/
def pad4 (n : Nat) : String :=
  if n < 10 then "000" ++ toString n
  else if n < 100 then "00" ++ toString n
  else if n < 1000 then "0" ++ toString n
  else toString n

/-- Left-pad a number to six digits, as Python renders microseconds. -/
def pad6 (n : Nat) : String :=
  if n < 10 then "00000" ++ toString n
  else if n < 100 then "0000" ++ toString n
  else if n < 1000 then "000" ++ toString n
  else if n < 10000 then "00" ++ toString n
  else if n < 100000 then "0" ++ toString n
  else toString n

/-- Python datetime.isoformat: YYYY-MM-DDTHH:MM:SS, followed by
.ffffff when the microsecond component is nonzero. -/
def Datetime.isoformat (d : Datetime) : String :=
  pad4 d.year ++ "-" ++ pad2 d.month ++ "-" ++ pad2 d.day ++ "T" ++
  pad2 d.hour ++ ":" ++ pad2 d.minute ++ ":" ++ pad2 d.second ++
  (if d.microsecond = 0 then "" else "." ++ pad6 d.microsecond)

/-- Values appearing in the dictionary returned by User.serialize. -/
inductive Value where
  | nat : Nat → Value
  | str : String → Value
  | optStr : Option String → Value
  | bool : Bool → Value
deriving DecidableEq

/-- Row of the users table (class User in models.py): id primary key,
username unique, email unique, optional full_name, password, is_active,
created_at. -/
structure User where
  id : Nat
  username : String
  email : String
  full_name : Option String
  password : String
  is_active : Bool
  created_at : Datetime
deriving DecidableEq

/-- User.serialize from models.py: a dictionary with keys id, username,
email, full_name, is_active and created_at (the last one via isoformat). -/
def User.serialize (u : User) : List (String × Value) :=
  [("id", Value.nat u.id),
   ("username", Value.str u.username),
   ("email", Value.str u.email),
   ("full_name", Value.optStr u.full_name),
   ("is_active", Value.bool u.is_active),
   ("created_at", Value.str u.created_at.isoformat)]

/-- Row of the posts table (class Post): id primary key, user_id foreign
key to users.id, image_url, optional caption, created_at. -/
structure Post where
  id : Nat
  user_id : Nat
  image_url : String
  caption : Option String
  created_at : Datetime
deriving DecidableEq

/-- Row of the comments table (class Comment): id primary key, post_id
and user_id foreign keys, content, created_at; extra unique constraint
uq_comment_per_post on (id, post_id). -/
structure Comment where
  id : Nat
  post_id : Nat
  user_id : Nat
  content : String
  created_at : Datetime
deriving DecidableEq

/-- Row of the likes table (class Like): composite primary key
(user_id, post_id), both foreign keys, plus created_at. -/
structure Like where
  user_id : Nat
  post_id : Nat
  created_at : Datetime
deriving DecidableEq

/-- Row of the follows table (class Follow): composite primary key
(follower_id, followed_id), both foreign keys to users.id, plus
created_at; unique constraint uq_follow_once on the same pair. -/
structure Follow where
  follower_id : Nat
  followed_id : Nat
  created_at : Datetime
deriving DecidableEq

/-- The database state: one list of rows per declared table. -/
structure DBState where
  users : List User
  posts : List Post
  comments : List Comment
  likes : List Like
  follows : List Follow
deriving DecidableEq

/-- Errors raised by the database on a rejected insert. -/
inductive DBError where
  | uniqueViolation
  | fkViolation
deriving DecidableEq

/-- Next value of an autoincrement integer primary key: one past the
largest id in use. -/
def freshId (ids : List Nat) : Nat :=
  ids.foldr (fun a m => max a m) 0 + 1

/-- Uniqueness and key constraints the schema declares: users have
pairwise distinct id (primary key), username and email (unique=True);
posts and comments have distinct primary-key ids; likes have pairwise
distinct (user_id, post_id) composite keys; follows have pairwise
distinct (follower_id, followed_id) composite keys. -/
def DBState.Inv (s : DBState) : Prop :=
  s.users.Pairwise (fun a b =>
      a.id ≠ b.id ∧ a.username ≠ b.username ∧ a.email ≠ b.email)
  ∧ s.posts.Pairwise (fun a b => a.id ≠ b.id)
  ∧ s.comments.Pairwise (fun a b => a.id ≠ b.id)
  ∧ s.likes.Pairwise (fun a b =>
      ¬(a.user_id = b.user_id ∧ a.post_id = b.post_id))
  ∧ s.follows.Pairwise (fun a b =>
      ¬(a.follower_id = b.follower_id ∧ a.followed_id = b.followed_id))

/-- Insert a new users row: the unique constraints on username and email
reject the insert when an existing row collides on either column; the
primary key id is autoincremented and created_at defaults to the
insertion time. -/
def insertUser (s : DBState) (username email : String)
    (full_name : Option String) (password : String) (is_active : Bool)
    (now : Datetime) : Except DBError DBState :=
  if s.users.any (fun v => v.username == username || v.email == email) then
    Except.error DBError.uniqueViolation
  else
    Except.ok { s with users := s.users ++
      [{ id := freshId (s.users.map User.id), username := username,
         email := email, full_name := full_name, password := password,
         is_active := is_active, created_at := now }] }

/-- Insert a new posts row: the foreign key on user_id rejects the insert
when no users row carries that id; the primary key id is autoincremented
and created_at defaults to the insertion time. -/
def insertPost (s : DBState) (user_id : Nat) (image_url : String)
    (caption : Option String) (now : Datetime) : Except DBError DBState :=
  if s.users.any (fun v => v.id == user_id) then
    Except.ok { s with posts := s.posts ++
      [{ id := freshId (s.posts.map Post.id), user_id := user_id,
         image_url := image_url, caption := caption, created_at := now }] }
  else Except.error DBError.fkViolation

/-- Insert a new comments row: foreign keys on post_id and user_id;
autoincremented primary key id, so the extra (id, post_id) unique
constraint can never fire on a fresh id. -/
def insertComment (s : DBState) (post_id user_id : Nat) (content : String)
    (now : Datetime) : Except DBError DBState :=
  if s.posts.any (fun p => p.id == post_id) &&
      s.users.any (fun v => v.id == user_id) then
    Except.ok { s with comments := s.comments ++
      [{ id := freshId (s.comments.map Comment.id), post_id := post_id,
         user_id := user_id, content := content, created_at := now }] }
  else Except.error DBError.fkViolation

/-- Insert a new likes row: the composite primary key rejects a second
row with the same (user_id, post_id); both columns are foreign keys. -/
def insertLike (s : DBState) (user_id post_id : Nat) (now : Datetime) :
    Except DBError DBState :=
  if s.likes.any (fun l => l.user_id == user_id && l.post_id == post_id) then
    Except.error DBError.uniqueViolation
  else if s.users.any (fun v => v.id == user_id) &&
      s.posts.any (fun p => p.id == post_id) then
    Except.ok { s with likes := s.likes ++
      [{ user_id := user_id, post_id := post_id, created_at := now }] }
  else Except.error DBError.fkViolation

/-- Insert a new follows row: the composite primary key (and the
uq_follow_once constraint on the same columns) rejects a second row with
the same (follower_id, followed_id); both columns are foreign keys to
users.id; nothing forbids follower_id = followed_id. -/
def insertFollow (s : DBState) (follower_id followed_id : Nat)
    (now : Datetime) : Except DBError DBState :=
  if s.follows.any (fun f =>
      f.follower_id == follower_id && f.followed_id == followed_id) then
    Except.error DBError.uniqueViolation
  else if s.users.any (fun v => v.id == follower_id) &&
      s.users.any (fun v => v.id == followed_id) then
    Except.ok { s with follows := s.follows ++
      [{ follower_id := follower_id, followed_id := followed_id,
         created_at := now }] }
  else Except.error DBError.fkViolation

/-- Delete a posts row by id: the delete-orphan cascades on
Post.comments and Post.likes remove every comment and like whose post_id
is the deleted id; users and follows are untouched. -/
def deletePost (s : DBState) (pid : Nat) : DBState :=
  { s with
    posts := s.posts.filter (fun p => p.id != pid),
    comments := s.comments.filter (fun c => c.post_id != pid),
    likes := s.likes.filter (fun l => l.post_id != pid) }

/-- Delete a users row by id: the delete-orphan cascades on User.posts,
User.comments, User.likes, User.followers and User.following remove the
posts owned by the user, the comments and likes made by the user, and
every follow edge in which the user appears on either side; in turn the
cascades on each deleted post remove the comments and likes sitting on
those posts. -/
def deleteUser (s : DBState) (uid : Nat) : DBState :=
  let deadPosts := (s.posts.filter (fun p => p.user_id == uid)).map Post.id
  { users := s.users.filter (fun v => v.id != uid),
    posts := s.posts.filter (fun p => p.user_id != uid),
    comments := s.comments.filter (fun c =>
      c.user_id != uid && !(deadPosts.contains c.post_id)),
    likes := s.likes.filter (fun l =>
      l.user_id != uid && !(deadPosts.contains l.post_id)),
    follows := s.follows.filter (fun f =>
      f.follower_id != uid && f.followed_id != uid) }

/-- The empty database produced by creating the schema. -/
def emptyDB : DBState := ⟨[], [], [], [], []⟩

/-- States reachable from the empty database through the declared
operations: successful inserts into the five tables and deletes of users
and posts. -/
inductive Reachable : DBState → Prop where
  | empty : Reachable emptyDB
  | insUser {s s' : DBState} {un em : String} {fn : Option String}
      {pw : String} {ia : Bool} {now : Datetime} :
      Reachable s → insertUser s un em fn pw ia now = Except.ok s' →
      Reachable s'
  | insPost {s s' : DBState} {uid : Nat} {url : String}
      {cap : Option String} {now : Datetime} :
      Reachable s → insertPost s uid url cap now = Except.ok s' →
      Reachable s'
  | insComment {s s' : DBState} {pid uid : Nat} {ct : String}
      {now : Datetime} :
      Reachable s → insertComment s pid uid ct now = Except.ok s' →
      Reachable s'
  | insLike {s s' : DBState} {uid pid : Nat} {now : Datetime} :
      Reachable s → insertLike s uid pid now = Except.ok s' →
      Reachable s'
  | insFollow {s s' : DBState} {fid gid : Nat} {now : Datetime} :
      Reachable s → insertFollow s fid gid now = Except.ok s' →
      Reachable s'
  | delUser {s : DBState} {uid : Nat} :
      Reachable s → Reachable (deleteUser s uid)
  | delPost {s : DBState} {pid : Nat} :
      Reachable s → Reachable (deletePost s pid)

/-- Fixed timestamp used by the concrete witnesses. -/
def d0 : Datetime := ⟨2024, 1, 2, 3, 4, 5, 0⟩

/-- Concrete users row with id 1. -/
def uAlice : User := ⟨1, "alice", "alice@example.com", none, "pw1", true, d0⟩

/-- Concrete users row with id 2. -/
def uBob : User := ⟨2, "bob", "bob@example.com", none, "pw2", true, d0⟩

/-- Concrete posts row: post 1 owned by user 1. -/
def pPost : Post := ⟨1, 1, "https://img.example/1.png", none, d0⟩

/-- Concrete comments row: comment 1 by user 2 on post 1. -/
def cComment : Comment := ⟨1, 1, 2, "nice", d0⟩

/-- Concrete likes row: user 2 likes post 1. -/
def lLike : Like := ⟨2, 1, d0⟩

/-- Concrete follows row: user 2 follows user 1. -/
def fFollow : Follow := ⟨2, 1, d0⟩

/-- Concrete state after inserting the first user. -/
def sA : DBState := ⟨[uAlice], [], [], [], []⟩

/-- Concrete state after inserting the second user. -/
def sB : DBState := ⟨[uAlice, uBob], [], [], [], []⟩

/-- Concrete state after inserting the post. -/
def sC : DBState := ⟨[uAlice, uBob], [pPost], [], [], []⟩

/-- Concrete state after inserting the comment. -/
def sD : DBState := ⟨[uAlice, uBob], [pPost], [cComment], [], []⟩

/-- Concrete state after inserting the like. -/
def sE : DBState := ⟨[uAlice, uBob], [pPost], [cComment], [lLike], []⟩

/-- Concrete database state reached by two user inserts, one post, one
comment, one like and one follow. -/
def sF : DBState := ⟨[uAlice, uBob], [pPost], [cComment], [lLike], [fFollow]⟩

/-- Concrete state obtained from sF by a successful self-follow of
user 1. -/
def sG : DBState :=
  ⟨[uAlice, uBob], [pPost], [cComment], [lLike], [fFollow, ⟨1, 1, d0⟩]⟩

/-- Every id in the list is bounded by the running maximum. -/
theorem le_foldr_max {ids : List Nat} {a : Nat} (h : a ∈ ids) :
    a ≤ ids.foldr (fun a m => max a m) 0 := by
  induction ids with
  | nil => cases h
  | cons b t ih =>
    rcases List.mem_cons.mp h with rfl | h
    · exact le_max_left _ _
    · exact le_trans (ih h) (le_max_right _ _)

/-- A fresh autoincrement id differs from every id already in use. -/
theorem ne_freshId {ids : List Nat} {a : Nat} (h : a ∈ ids) :
    a ≠ freshId ids :=
  Nat.ne_of_lt (Nat.lt_succ_of_le (le_foldr_max h))

/-- Appending one element keeps a list pairwise when the new element is
related to every old one. -/
theorem pairwise_snoc {α : Type} {R : α → α → Prop} {l : List α} {x : α}
    (hl : l.Pairwise R) (hx : ∀ a ∈ l, R a x) : (l ++ [x]).Pairwise R := by
  refine List.pairwise_append.mpr ⟨hl, List.pairwise_singleton R x, ?_⟩
  intro a ha b hb
  rw [List.mem_singleton] at hb
  subst hb
  exact hx a ha

/-- A successful user insert preserves the schema constraints. -/
theorem inv_insertUser {s s' : DBState} {un em : String}
    {fn : Option String} {pw : String} {ia : Bool} {now : Datetime}
    (hInv : s.Inv) (h : insertUser s un em fn pw ia now = Except.ok s') :
    s'.Inv := by
  unfold insertUser at h
  split at h
  · exact absurd h (by simp)
  · rename_i hc
    simp only [List.any_eq_true, Bool.or_eq_true, beq_iff_eq, not_exists,
      not_or, not_and] at hc
    cases h
    obtain ⟨h1, h2, h3, h4, h5⟩ := hInv
    refine ⟨?_, h2, h3, h4, h5⟩
    refine pairwise_snoc h1 ?_
    intro a ha
    obtain ⟨hun, hem⟩ := hc a ha
    exact ⟨ne_freshId (List.mem_map_of_mem User.id ha), hun, hem⟩

/-- A successful post insert preserves the schema constraints. -/
theorem inv_insertPost {s s' : DBState} {uid : Nat} {url : String}
    {cap : Option String} {now : Datetime}
    (hInv : s.Inv) (h : insertPost s uid url cap now = Except.ok s') :
    s'.Inv := by
  unfold insertPost at h
  split at h
  · cases h
    obtain ⟨h1, h2, h3, h4, h5⟩ := hInv
    exact ⟨h1,
      pairwise_snoc h2 (fun a ha => ne_freshId (List.mem_map_of_mem Post.id ha)),
      h3, h4, h5⟩
  · exact absurd h (by simp)

/-- A successful comment insert preserves the schema constraints. -/
theorem inv_insertComment {s s' : DBState} {pid uid : Nat} {ct : String}
    {now : Datetime}
    (hInv : s.Inv) (h : insertComment s pid uid ct now = Except.ok s') :
    s'.Inv := by
  unfold insertComment at h
  split at h
  · cases h
    obtain ⟨h1, h2, h3, h4, h5⟩ := hInv
    exact ⟨h1, h2,
      pairwise_snoc h3 (fun a ha => ne_freshId (List.mem_map_of_mem Comment.id ha)),
      h4, h5⟩
  · exact absurd h (by simp)

/-- A successful like insert preserves the schema constraints. -/
theorem inv_insertLike {s s' : DBState} {uid pid : Nat} {now : Datetime}
    (hInv : s.Inv) (h : insertLike s uid pid now = Except.ok s') :
    s'.Inv := by
  unfold insertLike at h
  split at h
  · exact absurd h (by simp)
  · rename_i hdup
    split at h
    · cases h
      obtain ⟨h1, h2, h3, h4, h5⟩ := hInv
      refine ⟨h1, h2, h3, pairwise_snoc h4 ?_, h5⟩
      intro a ha
      simp only [List.any_eq_true, Bool.and_eq_true, beq_iff_eq,
        not_exists, not_and] at hdup
      intro hab
      exact hdup a ha hab.1 hab.2
    · exact absurd h (by simp)

/-- A successful follow insert preserves the schema constraints. -/
theorem inv_insertFollow {s s' : DBState} {fid gid : Nat} {now : Datetime}
    (hInv : s.Inv) (h : insertFollow s fid gid now = Except.ok s') :
    s'.Inv := by
  unfold insertFollow at h
  split at h
  · exact absurd h (by simp)
  · rename_i hdup
    split at h
    · cases h
      obtain ⟨h1, h2, h3, h4, h5⟩ := hInv
      refine ⟨h1, h2, h3, h4, pairwise_snoc h5 ?_⟩
      intro a ha
      simp only [List.any_eq_true, Bool.and_eq_true, beq_iff_eq,
        not_exists, not_and] at hdup
      intro hab
      exact hdup a ha hab.1 hab.2
    · exact absurd h (by simp)

/-- Deleting a user preserves the schema constraints. -/
theorem inv_deleteUser {s : DBState} {uid : Nat} (hInv : s.Inv) :
    (deleteUser s uid).Inv := by
  obtain ⟨h1, h2, h3, h4, h5⟩ := hInv
  exact ⟨h1.filter _, h2.filter _, h3.filter _, h4.filter _, h5.filter _⟩

/-- Deleting a post preserves the schema constraints. -/
theorem inv_deletePost {s : DBState} {pid : Nat} (hInv : s.Inv) :
    (deletePost s pid).Inv := by
  obtain ⟨h1, h2, h3, h4, h5⟩ := hInv
  exact ⟨h1, h2.filter _, h3.filter _, h4.filter _, h5⟩

/-- Every reachable database state satisfies the declared uniqueness and
key constraints. -/
theorem reachable_inv {s : DBState} (h : Reachable s) : s.Inv := by
  induction h with
  | empty => exact ⟨List.Pairwise.nil, List.Pairwise.nil, List.Pairwise.nil,
      List.Pairwise.nil, List.Pairwise.nil⟩
  | insUser _ hstep ih => exact inv_insertUser ih hstep
  | insPost _ hstep ih => exact inv_insertPost ih hstep
  | insComment _ hstep ih => exact inv_insertComment ih hstep
  | insLike _ hstep ih => exact inv_insertLike ih hstep
  | insFollow _ hstep ih => exact inv_insertFollow ih hstep
  | delUser _ ih => exact inv_deleteUser ih
  | delPost _ ih => exact inv_deletePost ih

/-- The concrete state sF is reachable from the empty database. -/
theorem reachable_sF : Reachable sF :=
  Reachable.insFollow
    (Reachable.insLike
      (Reachable.insComment
        (Reachable.insPost
          (Reachable.insUser
            (Reachable.insUser Reachable.empty
              (show insertUser emptyDB "alice" "alice@example.com" none
                  "pw1" true d0 = Except.ok sA from rfl))
            (show insertUser sA "bob" "bob@example.com" none "pw2" true d0 =
                Except.ok sB from rfl))
          (show insertPost sB 1 "https://img.example/1.png" none d0 =
              Except.ok sC from rfl))
        (show insertComment sC 1 2 "nice" d0 = Except.ok sD from rfl))
      (show insertLike sD 2 1 d0 = Except.ok sE from rfl))
    (show insertFollow sE 2 1 d0 = Except.ok sF from rfl)

/-- C1: For every User record, User.serialize returns a key-value mapping
whose keys are exactly id, username, email, full_name, is_active and
created_at, where created_at is rendered as an ISO-8601 string (isoformat)
and every other value equals the corresponding field of the record; in
particular the password field never appears in the output. -/
theorem serialize_contract (u : User) :
    (u.serialize.map Prod.fst =
      ["id", "username", "email", "full_name", "is_active", "created_at"])
    ∧ u.serialize.lookup "id" = some (Value.nat u.id)
    ∧ u.serialize.lookup "username" = some (Value.str u.username)
    ∧ u.serialize.lookup "email" = some (Value.str u.email)
    ∧ u.serialize.lookup "full_name" = some (Value.optStr u.full_name)
    ∧ u.serialize.lookup "is_active" = some (Value.bool u.is_active)
    ∧ u.serialize.lookup "created_at" =
        some (Value.str u.created_at.isoformat)
    ∧ u.serialize.lookup "password" = none := by
  refine ⟨rfl, ?_, ?_, ?_, ?_, ?_, ?_, ?_⟩ <;> rfl

/-- C10: User.serialize does not depend on the password field: two User
records agreeing on id, username, email, full_name, is_active and
created_at serialize to equal mappings (serialize is a pure function of
the record, so it modifies nothing). -/
theorem serialize_ignores_password (u v : User)
    (hid : u.id = v.id) (hun : u.username = v.username)
    (hem : u.email = v.email) (hfn : u.full_name = v.full_name)
    (hia : u.is_active = v.is_active) (hca : u.created_at = v.created_at) :
    u.serialize = v.serialize := by
  simp [User.serialize, hid, hun, hem, hfn, hia, hca]

/-- Witness for C10: two concrete users that differ only in password
serialize identically. -/
theorem serialize_ignores_password_witness :
    (⟨1, "alice", "alice@example.com", none, "secretA", true, d0⟩ :
        User).serialize =
    (⟨1, "alice", "alice@example.com", none, "secretB", true, d0⟩ :
        User).serialize :=
  serialize_ignores_password _ _ rfl rfl rfl rfl rfl rfl

/-- C2: On a state satisfying the schema constraints, inserting a new
users row fails with a uniqueness violation exactly when some existing
row already carries the same username or the same email; when the insert
succeeds, usernames and emails are still globally unique afterwards. -/
theorem insertUser_uniqueness (s : DBState) (un em : String)
    (fn : Option String) (pw : String) (ia : Bool) (now : Datetime)
    (hInv : s.Inv) :
    (insertUser s un em fn pw ia now = Except.error DBError.uniqueViolation
      ↔ ∃ v ∈ s.users, v.username = un ∨ v.email = em)
    ∧ ∀ s', insertUser s un em fn pw ia now = Except.ok s' →
        s'.users.Pairwise (fun a b =>
          a.username ≠ b.username ∧ a.email ≠ b.email) := by
  constructor
  · have hcond :
        insertUser s un em fn pw ia now = Except.error DBError.uniqueViolation
          ↔ s.users.any (fun v => v.username == un || v.email == em) = true := by
      unfold insertUser
      split
      · rename_i hc; simp [hc]
      · rename_i hc; simp [hc]
    refine hcond.trans ?_
    simp
  · intro s' h
    exact (inv_insertUser hInv h).1.imp (fun hab => ⟨hab.2.1, hab.2.2⟩)

/-- Witness for C2: on the concrete reachable state sF, re-using the
username alice is rejected with a uniqueness violation. -/
theorem insertUser_uniqueness_witness :
    insertUser sF "alice" "new@example.com" none "pw3" true d0 =
      Except.error DBError.uniqueViolation :=
  (insertUser_uniqueness sF "alice" "new@example.com" none "pw3" true d0
      (reachable_inv reachable_sF)).1.mpr
    ⟨uAlice, by decide, Or.inl rfl⟩

/-- C9: A posts row is accepted only when its user_id foreign key points
at an existing users row. -/
theorem insertPost_requires_user (s : DBState) (uid : Nat) (url : String)
    (cap : Option String) (now : Datetime) (s' : DBState)
    (h : insertPost s uid url cap now = Except.ok s') :
    ∃ v ∈ s.users, v.id = uid := by
  unfold insertPost at h
  split at h
  · rename_i hc
    simpa using hc
  · exact absurd h (by simp)

/-- Witness for C9: the concrete insert of a post by user 2 into sB
succeeds, and the theorem recovers user 2 from it. -/
theorem insertPost_requires_user_witness :
    ∃ v ∈ sB.users, v.id = 2 :=
  insertPost_requires_user sB 2 "https://img.example/2.png" none d0
    ⟨[uAlice, uBob], [⟨1, 2, "https://img.example/2.png", none, d0⟩],
      [], [], []⟩ rfl

/-- C3: Inserting a likes row whose (user_id, post_id) pair already
exists fails with the composite primary-key violation (the error result
carries no new state, so the database is unchanged), and every reachable
state holds at most one likes row per (user, post) pair. -/
theorem insertLike_primary_key (s : DBState) (uid pid : Nat)
    (now : Datetime) (h : Reachable s) :
    ((∃ l ∈ s.likes, l.user_id = uid ∧ l.post_id = pid) →
      insertLike s uid pid now = Except.error DBError.uniqueViolation)
    ∧ s.likes.Pairwise (fun a b =>
        ¬(a.user_id = b.user_id ∧ a.post_id = b.post_id)) := by
  refine ⟨?_, (reachable_inv h).2.2.2.1⟩
  rintro ⟨l, hl, h1, h2⟩
  have hc : s.likes.any
      (fun l => l.user_id == uid && l.post_id == pid) = true :=
    List.any_eq_true.mpr ⟨l, hl, by simp [h1, h2]⟩
  simp [insertLike, hc]

/-- Witness for C3: on the concrete reachable state sF, user 2 liking
post 1 a second time is rejected, and the likes table of sF is pairwise
distinct on its composite key. -/
theorem insertLike_primary_key_witness :
    insertLike sF 2 1 d0 = Except.error DBError.uniqueViolation ∧
    sF.likes.Pairwise (fun a b =>
      ¬(a.user_id = b.user_id ∧ a.post_id = b.post_id)) :=
  have h := insertLike_primary_key sF 2 1 d0 reachable_sF
  ⟨h.1 ⟨lLike, by decide, rfl, rfl⟩, h.2⟩

/-- C4: Inserting a follows row whose (follower_id, followed_id) pair
already exists fails with a uniqueness violation (the error result
carries no new state, so the database is unchanged), and every reachable
state holds at most one follows row per ordered pair. -/
theorem insertFollow_uniqueness (s : DBState) (fid gid : Nat)
    (now : Datetime) (h : Reachable s) :
    ((∃ f ∈ s.follows, f.follower_id = fid ∧ f.followed_id = gid) →
      insertFollow s fid gid now = Except.error DBError.uniqueViolation)
    ∧ s.follows.Pairwise (fun a b =>
        ¬(a.follower_id = b.follower_id ∧ a.followed_id = b.followed_id)) := by
  refine ⟨?_, (reachable_inv h).2.2.2.2⟩
  rintro ⟨f, hf, h1, h2⟩
  have hc : s.follows.any
      (fun f => f.follower_id == fid && f.followed_id == gid) = true :=
    List.any_eq_true.mpr ⟨f, hf, by simp [h1, h2]⟩
  simp [insertFollow, hc]

/-- Witness for C4: on the concrete reachable state sF, user 2 following
user 1 a second time is rejected, and the follows table of sF is
pairwise distinct on its composite key. -/
theorem insertFollow_uniqueness_witness :
    insertFollow sF 2 1 d0 = Except.error DBError.uniqueViolation ∧
    sF.follows.Pairwise (fun a b =>
      ¬(a.follower_id = b.follower_id ∧ a.followed_id = b.followed_id)) :=
  have h := insertFollow_uniqueness sF 2 1 d0 reachable_sF
  ⟨h.1 ⟨fFollow, by decide, rfl, rfl⟩, h.2⟩

/-- C7: No constraint of the follows table forbids
follower_id = followed_id: there is a reachable state holding a user
with id 1 and no (1, 1) follows row on which the self-follow insert
succeeds. -/
theorem selfFollow_not_rejected :
    ∃ s s' : DBState, Reachable s ∧ (∃ v ∈ s.users, v.id = 1) ∧
      (∀ f ∈ s.follows, ¬(f.follower_id = 1 ∧ f.followed_id = 1)) ∧
      insertFollow s 1 1 d0 = Except.ok s' :=
  ⟨sF, sG, reachable_sF, ⟨uAlice, by decide, rfl⟩, by decide, rfl⟩

/-- C8: Every reachable state satisfies the uq_comment_per_post unique
constraint on (id, post_id), and the constraint is redundant: any list
of comment rows with pairwise distinct primary-key ids already has
pairwise distinct (id, post_id) pairs. -/
theorem comment_constraint_redundant (s : DBState) (h : Reachable s) :
    s.comments.Pairwise (fun a b => ¬(a.id = b.id ∧ a.post_id = b.post_id))
    ∧ ∀ l : List Comment, l.Pairwise (fun a b => a.id ≠ b.id) →
        l.Pairwise (fun a b => ¬(a.id = b.id ∧ a.post_id = b.post_id)) := by
  refine ⟨?_, fun l hl => hl.imp (fun hne hab => hne hab.1)⟩
  exact ((reachable_inv h).2.2.1).imp (fun hne hab => hne hab.1)

/-- Witness for C8: the concrete reachable state sF satisfies the
(id, post_id) unique constraint on its comments table. -/
theorem comment_constraint_redundant_witness :
    sF.comments.Pairwise (fun a b =>
      ¬(a.id = b.id ∧ a.post_id = b.post_id)) :=
  (comment_constraint_redundant sF reachable_sF).1

/-- C5: Deleting a user u removes exactly the rows u owns or owns
transitively through its posts: a users row survives exactly when its id
differs from u.id; a posts row survives exactly when u does not own it;
a comments (or likes) row survives exactly when it was not made by u and
does not sit on a post owned by u; a follows row survives exactly when u
is neither follower nor followed. -/
theorem deleteUser_cascade (s : DBState) (u : User) (_hu : u ∈ s.users) :
    (∀ v : User, v ∈ (deleteUser s u.id).users ↔ v ∈ s.users ∧ v.id ≠ u.id)
    ∧ (∀ p : Post, p ∈ (deleteUser s u.id).posts ↔
        p ∈ s.posts ∧ p.user_id ≠ u.id)
    ∧ (∀ c : Comment, c ∈ (deleteUser s u.id).comments ↔
        c ∈ s.comments ∧ c.user_id ≠ u.id ∧
          ¬∃ p ∈ s.posts, p.user_id = u.id ∧ p.id = c.post_id)
    ∧ (∀ l : Like, l ∈ (deleteUser s u.id).likes ↔
        l ∈ s.likes ∧ l.user_id ≠ u.id ∧
          ¬∃ p ∈ s.posts, p.user_id = u.id ∧ p.id = l.post_id)
    ∧ (∀ f : Follow, f ∈ (deleteUser s u.id).follows ↔
        f ∈ s.follows ∧ f.follower_id ≠ u.id ∧ f.followed_id ≠ u.id) := by
  refine ⟨fun v => ?_, fun p => ?_, fun c => ?_, fun l => ?_, fun f => ?_⟩ <;>
    simp [deleteUser, List.mem_filter, and_assoc]

/-- Witness for C5: deleting user 1 from the concrete state sF keeps
user 2 but drops the comment, the like (both sit on the post owned by
user 1) and the follow edge pointing at user 1. -/
theorem deleteUser_cascade_witness :
    uBob ∈ (deleteUser sF uAlice.id).users ∧
    cComment ∉ (deleteUser sF uAlice.id).comments ∧
    lLike ∉ (deleteUser sF uAlice.id).likes ∧
    fFollow ∉ (deleteUser sF uAlice.id).follows :=
  have h := deleteUser_cascade sF uAlice (by decide)
  ⟨(h.1 uBob).mpr ⟨by decide, by decide⟩,
   fun hc => ((h.2.2.1 cComment).mp hc).2.2 ⟨pPost, by decide, rfl, rfl⟩,
   fun hc => ((h.2.2.2.1 lLike).mp hc).2.2 ⟨pPost, by decide, rfl, rfl⟩,
   fun hc => ((h.2.2.2.2 fFollow).mp hc).2.2 rfl⟩

/-- C6: Deleting a post p removes exactly the comments and likes whose
post_id is p.id and the posts row with id p.id; the users and follows
tables are untouched, so in particular the author of p survives. -/
theorem deletePost_cascade (s : DBState) (p : Post) (_hp : p ∈ s.posts) :
    (∀ c : Comment, c ∈ (deletePost s p.id).comments ↔
        c ∈ s.comments ∧ c.post_id ≠ p.id)
    ∧ (∀ l : Like, l ∈ (deletePost s p.id).likes ↔
        l ∈ s.likes ∧ l.post_id ≠ p.id)
    ∧ (∀ q : Post, q ∈ (deletePost s p.id).posts ↔
        q ∈ s.posts ∧ q.id ≠ p.id)
    ∧ (deletePost s p.id).users = s.users
    ∧ (deletePost s p.id).follows = s.follows := by
  refine ⟨fun c => ?_, fun l => ?_, fun q => ?_, rfl, rfl⟩ <;>
    simp [deletePost, List.mem_filter]

/-- Witness for C6: deleting post 1 from the concrete state sF drops its
comment and its like while leaving the users and follows tables as they
were. -/
theorem deletePost_cascade_witness :
    cComment ∉ (deletePost sF pPost.id).comments ∧
    lLike ∉ (deletePost sF pPost.id).likes ∧
    (deletePost sF pPost.id).users = sF.users ∧
    (deletePost sF pPost.id).follows = sF.follows :=
  have h := deletePost_cascade sF pPost (by decide)
  ⟨fun hc => ((h.1 cComment).mp hc).2 rfl,
   fun hc => ((h.2.1 lLike).mp hc).2 rfl,
   h.2.2.2.1, h.2.2.2.2⟩
